import Mathlib

/-!
Verification of the passim shareable-file record core (src/libpassim/passim-item.c)
against its natural-language specification.

The C code is shallowly embedded: the PassimItem GObject becomes a Lean structure
with Option-valued pointer fields, guint32 fields become Nat truncated modulo 2^32
where the C type forces it, GVariant values become an inductive type, and the
filesystem consumed by the loader and checksum engine becomes an explicit record of
query functions. GLib helpers are modelled one-to-one where the code calls them,
including their documented behaviour at NULL arguments.
-/

namespace Passim

/-- Truncation to an unsigned 32-bit value, as C guint32 storage does. -/
def w32 (n : Nat) : Nat := n % 4294967296

/-- Truncation to an unsigned 8-bit value (one byte). -/
def w8 (n : Nat) : Nat := n % 256

/-- Right rotation of a 32-bit word by n bits. -/
def rotRight (n x : Nat) : Nat := w32 ((x >>> n) ||| (x <<< (32 - n)))

/-- SHA-256 choice function Ch(e,f,g). -/
def chooseFn (e f g : Nat) : Nat := (e &&& f) ^^^ ((e ^^^ 4294967295) &&& g)

/-- SHA-256 majority function Maj(a,b,c). -/
def majorityFn (a b c : Nat) : Nat := (a &&& b) ^^^ (a &&& c) ^^^ (b &&& c)

/-- SHA-256 big sigma 0 of the compression function. -/
def sumSig0 (x : Nat) : Nat := rotRight 2 x ^^^ rotRight 13 x ^^^ rotRight 22 x

/-- SHA-256 big sigma 1 of the compression function. -/
def sumSig1 (x : Nat) : Nat := rotRight 6 x ^^^ rotRight 11 x ^^^ rotRight 25 x

/-- SHA-256 small sigma 0 of the message schedule. -/
def schedSig0 (x : Nat) : Nat := rotRight 7 x ^^^ rotRight 18 x ^^^ (x >>> 3)

/-- SHA-256 small sigma 1 of the message schedule. -/
def schedSig1 (x : Nat) : Nat := rotRight 17 x ^^^ rotRight 19 x ^^^ (x >>> 10)

/-- The 64 SHA-256 round constants. -/
def sha256K : List Nat :=
  [1116352408, 1899447441, 3049323471, 3921009573, 961987163,
   1508970993, 2453635748, 2870763221, 3624381080, 310598401,
   607225278, 1426881987, 1925078388, 2162078206, 2614888103,
   3248222580, 3835390401, 4022224774, 264347078, 604807628,
   770255983, 1249150122, 1555081692, 1996064986, 2554220882,
   2821834349, 2952996808, 3210313671, 3336571891, 3584528711,
   113926993, 338241895, 666307205, 773529912, 1294757372,
   1396182291, 1695183700, 1986661051, 2177026350, 2456956037,
   2730485921, 2820302411, 3259730800, 3345764771, 3516065817,
   3600352804, 4094571909, 275423344, 430227734, 506948616,
   659060556, 883997877, 958139571, 1322822218, 1537002063,
   1747873779, 1955562222, 2024104815, 2227730452, 2361852424,
   2428436474, 2756734187, 3204031479, 3329325298]

/-- The SHA-256 initial hash values. -/
def sha256H0 : List Nat :=
  [1779033703, 3144134277, 1013904242,
   2773480762, 1359893119, 2600822924,
   528734635, 1541459225]

/-- Big-endian bytes (8 of them) of a 64-bit length value. -/
def beBytes8 (n : Nat) : List Nat :=
  [w8 (n >>> 56), w8 (n >>> 48), w8 (n >>> 40), w8 (n >>> 32),
   w8 (n >>> 24), w8 (n >>> 16), w8 (n >>> 8), w8 n]

/-- SHA-256 padding: append 0x80, zeros up to 56 mod 64, then the bit length big-endian. -/
def sha256pad (msg : List Nat) : List Nat :=
  msg ++ [0x80] ++ List.replicate ((119 - msg.length % 64) % 64) 0 ++ beBytes8 (8 * msg.length)

/-- Group bytes into big-endian 32-bit words. -/
def toWords : List Nat → List Nat
  | a :: b :: c :: d :: rest => (((a * 256 + b) * 256 + c) * 256 + d) :: toWords rest
  | _ => []

/-- Split a word list into chunks of 16 words, with fuel for structural recursion. -/
def toBlocksAux : Nat → List Nat → List (List Nat)
  | 0, _ => []
  | _, [] => []
  | fuel + 1, ws => ws.take 16 :: toBlocksAux fuel (ws.drop 16)

/-- Split a word list into its 512-bit blocks of 16 words. -/
def toBlocks (ws : List Nat) : List (List Nat) := toBlocksAux ws.length ws

/-- One step of message-schedule extension: append the next W word computed from
earlier words. -/
def sched1 (acc : List Nat) : List Nat :=
  acc ++ [w32 (schedSig1 (acc.getD (acc.length - 2) 0) + acc.getD (acc.length - 7) 0 +
               schedSig0 (acc.getD (acc.length - 15) 0) + acc.getD (acc.length - 16) 0)]

/-- Iterate a list transformer n times. -/
def iterN (f : List Nat → List Nat) : Nat → List Nat → List Nat
  | 0, x => x
  | n + 1, x => iterN f n (f x)

/-- The full 64-word message schedule of one block. -/
def schedule (block : List Nat) : List Nat := iterN sched1 48 block

/-- One SHA-256 compression round on the 8-word working state. -/
def compressStep (kt wt : Nat) (s : List Nat) : List Nat :=
  match s with
  | [a, b, c, d, e, f, g, h] =>
    let t1 := w32 (h + sumSig1 e + chooseFn e f g + kt + wt)
    let t2 := w32 (sumSig0 a + majorityFn a b c)
    [w32 (t1 + t2), a, b, c, w32 (d + t1), e, f, g]
  | other => other

/-- Compress one 16-word block into the running hash value. -/
def compressBlock (hv block : List Nat) : List Nat :=
  let ws := schedule block
  let s := (List.zip sha256K ws).foldl (fun st kw => compressStep kw.1 kw.2 st) hv
  List.zipWith (fun x y => w32 (x + y)) hv s

/-- SHA-256 digest of a byte list, as its 32 output bytes. -/
def sha256bytes (msg : List Nat) : List Nat :=
  let hv := (toBlocks (toWords (sha256pad msg))).foldl compressBlock sha256H0
  (hv.map (fun wrd => [w8 (wrd >>> 24), w8 (wrd >>> 16), w8 (wrd >>> 8), w8 wrd])).flatten

/-- The lowercase hexadecimal digit table, as in the GLib checksum renderer. -/
def hexDigits : List Char := "0123456789abcdef".toList

/-- Render one byte as two lowercase hexadecimal characters. -/
def byteHex (b : Nat) : List Char :=
  [hexDigits.getD (b / 16 % 16) '0', hexDigits.getD (b % 16) '0']

/-- SHA-256 digest of a byte list rendered as a lowercase hexadecimal string,
the value g_compute_checksum_for_data produces for G_CHECKSUM_SHA256. -/
def sha256hex (msg : List Nat) : String := ((sha256bytes msg).map byteHex).flatten.asString

/-- Embedding of g_compute_checksum_for_data with G_CHECKSUM_SHA256 over a buffer. -/
def g_compute_checksum_for_data_sha256 (buf : List Nat) : String := sha256hex buf

/-- The PassimItemPrivate state: a gchar pointer becomes an Option String, a
guint32 becomes a Nat (kept below 2^32 by every operation of the code), the
GFile handle becomes the Option String path it was created from, and the
GDateTime ctime becomes an Option Nat timestamp. -/
structure PassimItem where
  hash : Option String
  basename : Option String
  max_age : Nat
  share_limit : Nat
  share_count : Nat
  file : Option String
  ctime : Option Nat
deriving DecidableEq

/-- The g_object_new zero-initialised state followed by passim_item_init, which
sets max_age to 24 hours of seconds and share_limit to 5. -/
def passim_item_init (self : PassimItem) : PassimItem :=
  { self with max_age := 24 * 60 * 60, share_limit := 5 }

/-- passim_item_new: a fresh zero-initialised object run through passim_item_init. -/
def passim_item_new : PassimItem :=
  passim_item_init { hash := none, basename := none, max_age := 0, share_limit := 0,
                     share_count := 0, file := none, ctime := none }

/-- passim_item_get_hash returns the hash field, NULL when unset. -/
def passim_item_get_hash (self : PassimItem) : Option String := self.hash

/-- passim_item_get_basename returns the basename field, NULL when unset. -/
def passim_item_get_basename (self : PassimItem) : Option String := self.basename

/-- passim_item_set_hash: returns unchanged when g_strcmp0 reports the new value
equal to the current one (also when both are NULL), else stores a copy. -/
def passim_item_set_hash (self : PassimItem) (hash : Option String) : PassimItem :=
  if self.hash = hash then self else { self with hash := hash }

/-- passim_item_set_basename: returns unchanged when g_strcmp0 reports the new
value equal to the current one (also when both are NULL), else stores a copy. -/
def passim_item_set_basename (self : PassimItem) (basename : Option String) : PassimItem :=
  if self.basename = basename then self else { self with basename := basename }

/-- passim_item_set_file: g_set_object replaces the held reference, a no-op when
the same reference is set again. -/
def passim_item_set_file (self : PassimItem) (file : Option String) : PassimItem :=
  if self.file = file then self else { self with file := file }

/-- The result of g_file_query_info for one path: the creation-time attribute may
itself be absent even when the query succeeds, in which case
g_file_info_get_creation_date_time returns NULL. -/
structure GFileInfo where
  creation_date_time : Option Nat
deriving DecidableEq

/-- The filesystem the loader and checksum engine consume: g_file_query_info
(none is a query error such as a missing path) and g_file_get_contents (none is
a read error). -/
structure Filesystem where
  query_info : String → Option GFileInfo
  get_contents : String → Option (List Nat)

/-- passim_compute_checksum_for_filename: g_file_get_contents then SHA-256 over
the buffer; NULL with the GError set when the read fails. -/
def passim_compute_checksum_for_filename (fs : Filesystem) (filename : String) : Option String :=
  match fs.get_contents filename with
  | none => none
  | some buf => some (g_compute_checksum_for_data_sha256 buf)

/-- Strip trailing directory separators, as g_path_get_basename does. -/
def dropTrailingSlashes (cs : List Char) : List Char :=
  (cs.reverse.dropWhile (fun c => c = '/')).reverse

/-- The run of non-separator characters at the end of a path. -/
def afterLastSlash (cs : List Char) : List Char :=
  (cs.reverse.takeWhile (fun c => c ≠ '/')).reverse

/-- g_path_get_basename: a dot for the empty name, a separator for an
all-separator name, otherwise the component after the last separator once
trailing separators are stripped. -/
def g_path_get_basename (file_name : String) : String :=
  if file_name.isEmpty then "."
  else
    let cs := dropTrailingSlashes file_name.toList
    if cs.isEmpty then "/" else (afterLastSlash cs).asString

/-- passim_item_load_filename: store the file handle, query the creation time
(failing the load when the query fails), assign the queried creation time to
ctime directly, derive basename from the path only when unset, and compute the
hash over the file content only when unset (failing the load when the read
fails). Returns the updated item and the gboolean result. -/
def passim_item_load_filename (fs : Filesystem) (self : PassimItem) (filename : String) :
    PassimItem × Bool :=
  let self0 := passim_item_set_file self (some filename)
  match fs.query_info filename with
  | none => (self0, false)
  | some info =>
    let self1 := { self0 with ctime := info.creation_date_time }
    let self2 := if self1.basename = none
      then { self1 with basename := some (g_path_get_basename filename) } else self1
    if self2.hash = none then
      match passim_compute_checksum_for_filename fs filename with
      | none => (self2, false)
      | some h => ({ self2 with hash := some h }, true)
    else (self2, true)

/-- A GVariant value as the codec uses them: a string or a uint32. -/
inductive GVariant where
  | vs (s : String)
  | vu32 (n : Nat)
deriving DecidableEq

/-- g_variant_new_string: its contract requires a non-NULL string; at NULL the
g_return_val_if_fail precondition fires (a GLib critical) and NULL is returned,
modelled as none. -/
def g_variant_new_string : Option String → Option GVariant
  | none => none
  | some s => some (GVariant.vs s)

/-- g_variant_new_uint32 stores the 32-bit value. -/
def g_variant_new_uint32 (n : Nat) : GVariant := GVariant.vu32 (w32 n)

/-- g_variant_dup_string: a copy of the string for a string variant; for a
non-string variant the type check fails and NULL comes back. -/
def g_variant_dup_string : GVariant → Option String
  | GVariant.vs s => some s
  | GVariant.vu32 _ => none

/-- g_variant_get_uint32: the stored 32-bit value for a uint32 variant; for a
non-uint32 variant the type check fails and 0 comes back. -/
def g_variant_get_uint32 : GVariant → Nat
  | GVariant.vu32 n => w32 n
  | GVariant.vs _ => 0

/-- Adding one sv dict entry to a GVariantBuilder: with a NULL value the nested
g_variant_new_variant and g_variant_new_dict_entry preconditions fail, so
g_variant_builder_add_value receives NULL and drops the entry. -/
def g_variant_builder_add (entries : List (String × GVariant)) (key : String) :
    Option GVariant → List (String × GVariant)
  | none => entries
  | some v => entries ++ [(key, v)]

/-- passim_item_to_variant: build the a(sv) vardict with the five entries in
order; the basename and hash strings go through g_variant_new_string with no
NULL guard. -/
def passim_item_to_variant (self : PassimItem) : List (String × GVariant) :=
  g_variant_builder_add
    (g_variant_builder_add
      (g_variant_builder_add
        (g_variant_builder_add
          (g_variant_builder_add [] "filename" (g_variant_new_string self.basename))
          "hash" (g_variant_new_string self.hash))
        "max-age" (some (g_variant_new_uint32 self.max_age)))
      "share-limit" (some (g_variant_new_uint32 self.share_limit)))
    "share-count" (some (g_variant_new_uint32 self.share_count))

/-- One iteration of the passim_item_from_variant key walk: each recognised key
overwrites its field directly, every other key falls through untouched. -/
def passim_item_from_variant_step (self : PassimItem) (entry : String × GVariant) : PassimItem :=
  let s1 := if entry.1 = "filename" then { self with basename := g_variant_dup_string entry.2 }
            else self
  let s2 := if entry.1 = "hash" then { s1 with hash := g_variant_dup_string entry.2 } else s1
  let s3 := if entry.1 = "max-age" then { s2 with max_age := g_variant_get_uint32 entry.2 }
            else s2
  let s4 := if entry.1 = "share-limit" then { s3 with share_limit := g_variant_get_uint32 entry.2 }
            else s3
  if entry.1 = "share-count" then { s4 with share_count := g_variant_get_uint32 entry.2 } else s4

/-- passim_item_from_variant: a fresh passim_item_new, then the key walk over
every entry of the vardict. -/
def passim_item_from_variant (entries : List (String × GVariant)) : PassimItem :=
  entries.foldl passim_item_from_variant_step passim_item_new

/-- The five keys the decoder recognises. -/
def recognizedKeys : List String := ["filename", "hash", "max-age", "share-limit", "share-count"]

/-- The string value a sequential overwrite walk leaves for one key: the decoded
value of the last occurrence of that key in the mapping, or the given default
when the key is absent. Stated from the decode contract, to be compared with
what passim_item_from_variant computes. -/
def lastStringValue (entries : List (String × GVariant)) (key : String)
    (dflt : Option String) : Option String :=
  entries.foldl (fun acc e => if e.1 = key then g_variant_dup_string e.2 else acc) dflt

/-- The uint32 value a sequential overwrite walk leaves for one key: the decoded
value of the last occurrence of that key in the mapping, or the given default
when the key is absent. Stated from the decode contract, to be compared with
what passim_item_from_variant computes. -/
def lastU32Value (entries : List (String × GVariant)) (key : String) (dflt : Nat) : Nat :=
  entries.foldl (fun acc e => if e.1 = key then g_variant_get_uint32 e.2 else acc) dflt

/-- The five ASCII bytes of the string hello. -/
def helloBytes : List Nat := [104, 101, 108, 108, 111]

/-- A concrete filesystem with one readable file whose content is hello and
whose creation time is known. -/
def fsHello : Filesystem :=
  { query_info := fun p =>
      if p = "/tmp/hello" then some { creation_date_time := some 1700000000 } else none,
    get_contents := fun p => if p = "/tmp/hello" then some helloBytes else none }

/-- A concrete filesystem where the path exists and is readable but the
creation-time attribute is absent, as on a filesystem without btime support. -/
def fsNoCtime : Filesystem :=
  { query_info := fun p => if p = "/mnt/f" then some { creation_date_time := none } else none,
    get_contents := fun p => if p = "/mnt/f" then some [1, 2, 3] else none }

/-- A concrete fully populated item. -/
def itemEx : PassimItem :=
  { hash := some "h1", basename := some "b1", max_age := 100, share_limit := 7,
    share_count := 2, file := none, ctime := none }

/-- A second concrete filesystem holding the same hello content under another
path, with no metadata available. -/
def fsHello2 : Filesystem :=
  { query_info := fun _ => none,
    get_contents := fun p => if p = "/data/copy" then some helloBytes else none }

/-- Every entry of the hexadecimal digit table indexed below 16 is a table
element. -/
theorem hexDigits_getD_mem : ∀ i < 16, hexDigits.getD i '0' ∈ hexDigits := by
  decide

/-- Both characters rendered for a byte come from the hexadecimal digit table. -/
theorem byteHex_chars (b : Nat) (c : Char) (hc : c ∈ byteHex b) : c ∈ hexDigits := by
  have h1 : b / 16 % 16 < 16 := Nat.mod_lt _ (by norm_num)
  have h2 : b % 16 < 16 := Nat.mod_lt _ (by norm_num)
  simp only [byteHex, List.mem_cons, List.not_mem_nil, or_false] at hc
  rcases hc with hc | hc
  · exact hc ▸ hexDigits_getD_mem _ h1
  · exact hc ▸ hexDigits_getD_mem _ h2

/-- Every character of a rendered digest comes from the lowercase hexadecimal
digit table. -/
theorem sha256hex_chars (msg : List Nat) (c : Char) (hc : c ∈ (sha256hex msg).data) :
    c ∈ hexDigits := by
  have hdata : (((sha256bytes msg).map byteHex).flatten.asString).data =
      ((sha256bytes msg).map byteHex).flatten := rfl
  rw [sha256hex, hdata, List.mem_flatten] at hc
  obtain ⟨l, hl, hcl⟩ := hc
  rw [List.mem_map] at hl
  obtain ⟨b, _, rfl⟩ := hl
  exact byteHex_chars b c hcl

/-- C2: the checksum of a file is the SHA-256 digest of its full byte content
rendered as lowercase hexadecimal; it depends only on the byte content, so it is
deterministic, and on the five ASCII bytes of hello it is the stated 64-char
digest. -/
theorem C2_checksum_sha256 :
    (∀ (fs1 fs2 : Filesystem) (p1 p2 : String) (buf : List Nat),
        fs1.get_contents p1 = some buf → fs2.get_contents p2 = some buf →
        passim_compute_checksum_for_filename fs1 p1 =
          passim_compute_checksum_for_filename fs2 p2) ∧
    (∀ (fs : Filesystem) (p : String) (buf : List Nat), fs.get_contents p = some buf →
        passim_compute_checksum_for_filename fs p = some (sha256hex buf)) ∧
    (∀ (msg : List Nat) (c : Char), c ∈ (sha256hex msg).data → c ∈ hexDigits) ∧
    sha256hex helloBytes =
      "2cf24dba5fb0a30e26e83b2ac5b9e29e1b161e5c1fa7425e73043362938b9824" := by
  refine ⟨?_, ?_, sha256hex_chars, by decide⟩
  · intro fs1 fs2 p1 p2 buf h1 h2
    simp [passim_compute_checksum_for_filename, h1, h2]
  · intro fs p buf h
    simp [passim_compute_checksum_for_filename, h, g_compute_checksum_for_data_sha256]

/-- Witness for C2: the hello file digests to the stated string, two files with
the same content digest identically, and a digest character is a hex digit. -/
theorem C2_checksum_sha256_witness :
    passim_compute_checksum_for_filename fsHello "/tmp/hello" =
      some "2cf24dba5fb0a30e26e83b2ac5b9e29e1b161e5c1fa7425e73043362938b9824" ∧
    passim_compute_checksum_for_filename fsHello "/tmp/hello" =
      passim_compute_checksum_for_filename fsHello2 "/data/copy" ∧
    ('2' : Char) ∈ hexDigits := by
  have h := C2_checksum_sha256
  refine ⟨?_, h.1 fsHello fsHello2 "/tmp/hello" "/data/copy" helloBytes (by decide) (by decide),
          h.2.2.1 helloBytes '2' (by decide)⟩
  rw [h.2.1 fsHello "/tmp/hello" helloBytes (by decide), h.2.2.2]

/-- The basename a decoder step leaves: the decoded value when the key is
filename, otherwise the previous basename. -/
theorem from_variant_step_basename (self : PassimItem) (e : String × GVariant) :
    (passim_item_from_variant_step self e).basename =
      if e.1 = "filename" then g_variant_dup_string e.2 else self.basename := by
  unfold passim_item_from_variant_step
  split_ifs <;> rfl

/-- The hash a decoder step leaves: the decoded value when the key is hash,
otherwise the previous hash. -/
theorem from_variant_step_hash (self : PassimItem) (e : String × GVariant) :
    (passim_item_from_variant_step self e).hash =
      if e.1 = "hash" then g_variant_dup_string e.2 else self.hash := by
  unfold passim_item_from_variant_step
  split_ifs <;> rfl

/-- The max_age a decoder step leaves: the decoded value when the key is
max-age, otherwise the previous max_age. -/
theorem from_variant_step_max_age (self : PassimItem) (e : String × GVariant) :
    (passim_item_from_variant_step self e).max_age =
      if e.1 = "max-age" then g_variant_get_uint32 e.2 else self.max_age := by
  unfold passim_item_from_variant_step
  split_ifs <;> rfl

/-- The share_limit a decoder step leaves: the decoded value when the key is
share-limit, otherwise the previous share_limit. -/
theorem from_variant_step_share_limit (self : PassimItem) (e : String × GVariant) :
    (passim_item_from_variant_step self e).share_limit =
      if e.1 = "share-limit" then g_variant_get_uint32 e.2 else self.share_limit := by
  unfold passim_item_from_variant_step
  split_ifs <;> rfl

/-- The share_count a decoder step leaves: the decoded value when the key is
share-count, otherwise the previous share_count. -/
theorem from_variant_step_share_count (self : PassimItem) (e : String × GVariant) :
    (passim_item_from_variant_step self e).share_count =
      if e.1 = "share-count" then g_variant_get_uint32 e.2 else self.share_count := by
  unfold passim_item_from_variant_step
  split_ifs <;> rfl

/-- A decoder step never touches the file handle or the creation time. -/
theorem from_variant_step_file_ctime (self : PassimItem) (e : String × GVariant) :
    (passim_item_from_variant_step self e).file = self.file ∧
    (passim_item_from_variant_step self e).ctime = self.ctime := by
  unfold passim_item_from_variant_step
  split_ifs <;> exact ⟨rfl, rfl⟩

/-- Folding the decoder key walk over any entry list computes, for each of the
five recognised keys, the value of its last occurrence (or keeps the start
value when absent), and never touches file or ctime. -/
theorem from_variant_foldl_fields (entries : List (String × GVariant)) (self : PassimItem) :
    (entries.foldl passim_item_from_variant_step self).basename =
      lastStringValue entries "filename" self.basename ∧
    (entries.foldl passim_item_from_variant_step self).hash =
      lastStringValue entries "hash" self.hash ∧
    (entries.foldl passim_item_from_variant_step self).max_age =
      lastU32Value entries "max-age" self.max_age ∧
    (entries.foldl passim_item_from_variant_step self).share_limit =
      lastU32Value entries "share-limit" self.share_limit ∧
    (entries.foldl passim_item_from_variant_step self).share_count =
      lastU32Value entries "share-count" self.share_count ∧
    (entries.foldl passim_item_from_variant_step self).file = self.file ∧
    (entries.foldl passim_item_from_variant_step self).ctime = self.ctime := by
  induction entries generalizing self with
  | nil => exact ⟨rfl, rfl, rfl, rfl, rfl, rfl, rfl⟩
  | cons e rest ih =>
    rw [List.foldl_cons]
    have h := ih (passim_item_from_variant_step self e)
    refine ⟨?_, ?_, ?_, ?_, ?_, ?_, ?_⟩
    · rw [h.1, from_variant_step_basename]
      rfl
    · rw [h.2.1, from_variant_step_hash]
      rfl
    · rw [h.2.2.1, from_variant_step_max_age]
      rfl
    · rw [h.2.2.2.1, from_variant_step_share_limit]
      rfl
    · rw [h.2.2.2.2.1, from_variant_step_share_count]
      rfl
    · rw [h.2.2.2.2.2.1, (from_variant_step_file_ctime self e).1]
    · rw [h.2.2.2.2.2.2, (from_variant_step_file_ctime self e).2]

/-- C9: decoding any well-typed input mapping succeeds and is fully determined
key by key: each recognised key present overwrites its field with the decoded
value of its last occurrence, keys other than the five recognised ones affect
nothing, each absent recognised key leaves the field at its construction
default, and the stated two-key example yields a default Record with only the
hash set. -/
theorem C9_permissive_decode (entries : List (String × GVariant)) :
    (passim_item_from_variant entries).basename = lastStringValue entries "filename" none ∧
    (passim_item_from_variant entries).hash = lastStringValue entries "hash" none ∧
    (passim_item_from_variant entries).max_age = lastU32Value entries "max-age" 86400 ∧
    (passim_item_from_variant entries).share_limit = lastU32Value entries "share-limit" 5 ∧
    (passim_item_from_variant entries).share_count = lastU32Value entries "share-count" 0 ∧
    (passim_item_from_variant entries).file = none ∧
    (passim_item_from_variant entries).ctime = none ∧
    passim_item_from_variant [("hash", GVariant.vs "abc"), ("unknown-key", GVariant.vu32 1)] =
      { passim_item_new with hash := some "abc" } := by
  have h := from_variant_foldl_fields entries passim_item_new
  exact ⟨h.1, h.2.1, h.2.2.1, h.2.2.2.1, h.2.2.2.2.1, h.2.2.2.2.2.1, h.2.2.2.2.2.2, by decide⟩

/-- C7: a freshly constructed Record has max_age 86400, share_limit 5,
share_count 0, and hash, basename, file and ctime unset. -/
theorem C7_default_construction :
    passim_item_new.max_age = 86400 ∧ passim_item_new.share_limit = 5 ∧
    passim_item_new.share_count = 0 ∧ passim_item_new.hash = none ∧
    passim_item_new.basename = none ∧ passim_item_new.file = none ∧
    passim_item_new.ctime = none := by
  decide

/-- C8: calling set_hash or set_basename with a value equal to the current value
of the field, the unset value on an unset field included, leaves the whole
Record unchanged. -/
theorem C8_idempotent_string_setters (self : PassimItem) (v : Option String) :
    (self.hash = v → passim_item_set_hash self v = self) ∧
    (self.basename = v → passim_item_set_basename self v = self) := by
  constructor
  · intro h
    simp [passim_item_set_hash, h]
  · intro h
    simp [passim_item_set_basename, h]

/-- Witness for C8 at a set hash equal to the stored one and at an unset
basename set to NULL. -/
theorem C8_idempotent_string_setters_witness :
    passim_item_set_hash itemEx (some "h1") = itemEx ∧
    passim_item_set_basename passim_item_new none = passim_item_new :=
  ⟨(C8_idempotent_string_setters itemEx (some "h1")).1 rfl,
   (C8_idempotent_string_setters passim_item_new none).2 rfl⟩

/-- C10: on a Record whose hash (basename) is set, set_hash (set_basename) with
NULL clears the field, the getter then returns the unset sentinel, and every
other field is unchanged. -/
theorem C10_string_setters_unset_on_null (self : PassimItem) :
    (∀ h, self.hash = some h →
      passim_item_set_hash self none = { self with hash := none } ∧
      passim_item_get_hash (passim_item_set_hash self none) = none) ∧
    (∀ b, self.basename = some b →
      passim_item_set_basename self none = { self with basename := none } ∧
      passim_item_get_basename (passim_item_set_basename self none) = none) := by
  constructor
  · intro h hh
    simp [passim_item_set_hash, hh, passim_item_get_hash]
  · intro b hb
    simp [passim_item_set_basename, hb, passim_item_get_basename]

/-- Witness for C10 at a concrete item with both strings set. -/
theorem C10_string_setters_unset_on_null_witness :
    (passim_item_set_hash itemEx none = { itemEx with hash := none } ∧
      passim_item_get_hash (passim_item_set_hash itemEx none) = none) ∧
    (passim_item_set_basename itemEx none = { itemEx with basename := none } ∧
      passim_item_get_basename (passim_item_set_basename itemEx none) = none) :=
  ⟨(C10_string_setters_unset_on_null itemEx).1 "h1" rfl,
   (C10_string_setters_unset_on_null itemEx).2 "b1" rfl⟩

/-- C1 as stated is false: on a fresh Record with basename unset, the encoded
vardict has no filename entry at all, in particular not one holding the empty
string, because g_variant_new_string receives NULL, its precondition fails and
the entry is dropped. -/
theorem C1_counterexample :
    (passim_item_to_variant passim_item_new).lookup "filename" = none ∧
    ¬ (passim_item_to_variant passim_item_new).lookup "filename" = some (GVariant.vs "") ∧
    (passim_item_to_variant passim_item_new).lookup "hash" = none ∧
    ¬ (passim_item_to_variant passim_item_new).lookup "hash" = some (GVariant.vs "") := by
  decide

/-- C1 amended: to_dict always returns a mapping; the three numeric entries are
always present, and the filename and hash entries are present exactly when
basename and hash are set, holding those strings; an unset basename or hash
yields no entry (it is dropped after a failed g_variant_new_string
precondition), not an empty string. -/
theorem C1_encoder_totality_characterization (self : PassimItem) :
    passim_item_to_variant self =
      (match self.basename with
       | some b => [("filename", GVariant.vs b)]
       | none => []) ++
      (match self.hash with
       | some h => [("hash", GVariant.vs h)]
       | none => []) ++
      [("max-age", GVariant.vu32 (w32 self.max_age)),
       ("share-limit", GVariant.vu32 (w32 self.share_limit)),
       ("share-count", GVariant.vu32 (w32 self.share_count))] := by
  cases hb : self.basename <;> cases hh : self.hash <;>
    simp [passim_item_to_variant, g_variant_builder_add, g_variant_new_string,
          g_variant_new_uint32, hb, hh]

/-- passim_item_set_file always leaves the item with the given file handle and
every other field unchanged, whether or not the handle was already held. -/
theorem set_file_spec (self : PassimItem) (f : Option String) :
    passim_item_set_file self f = { self with file := f } := by
  unfold passim_item_set_file
  split_ifs with hf
  · rw [← hf]
  · rfl

/-- C3: for a Record with basename and hash set, decoding the encoding restores
basename, hash, max_age, share_limit and share_count exactly. -/
theorem C3_round_trip (self : PassimItem) (b h : String)
    (hb : self.basename = some b) (hh : self.hash = some h)
    (h1 : self.max_age < 4294967296) (h2 : self.share_limit < 4294967296)
    (h3 : self.share_count < 4294967296) :
    (passim_item_from_variant (passim_item_to_variant self)).basename = self.basename ∧
    (passim_item_from_variant (passim_item_to_variant self)).hash = self.hash ∧
    (passim_item_from_variant (passim_item_to_variant self)).max_age = self.max_age ∧
    (passim_item_from_variant (passim_item_to_variant self)).share_limit = self.share_limit ∧
    (passim_item_from_variant (passim_item_to_variant self)).share_count = self.share_count := by
  have henc : passim_item_to_variant self =
      [("filename", GVariant.vs b), ("hash", GVariant.vs h),
       ("max-age", GVariant.vu32 (w32 self.max_age)),
       ("share-limit", GVariant.vu32 (w32 self.share_limit)),
       ("share-count", GVariant.vu32 (w32 self.share_count))] := by
    simp [passim_item_to_variant, g_variant_builder_add, g_variant_new_string,
          g_variant_new_uint32, hb, hh]
  rw [henc, hb, hh]
  refine ⟨?_, ?_, ?_, ?_, ?_⟩ <;>
    simp [passim_item_from_variant, passim_item_from_variant_step, g_variant_dup_string,
          g_variant_get_uint32, w32] <;>
    omega

/-- Witness for C3 at a concrete fully populated item. -/
theorem C3_round_trip_witness :
    (passim_item_from_variant (passim_item_to_variant itemEx)).basename = itemEx.basename ∧
    (passim_item_from_variant (passim_item_to_variant itemEx)).hash = itemEx.hash ∧
    (passim_item_from_variant (passim_item_to_variant itemEx)).max_age = itemEx.max_age ∧
    (passim_item_from_variant (passim_item_to_variant itemEx)).share_limit = itemEx.share_limit ∧
    (passim_item_from_variant (passim_item_to_variant itemEx)).share_count = itemEx.share_count :=
  C3_round_trip itemEx "b1" "h1" rfl rfl (by decide) (by decide) (by decide)

/-- C4: when the metadata query fails, load returns the error result, the file
handle has been set to the requested path, and basename and hash are unchanged. -/
theorem C4_load_metadata_failure (fs : Filesystem) (self : PassimItem) (filename : String)
    (hq : fs.query_info filename = none) :
    (passim_item_load_filename fs self filename).2 = false ∧
    (passim_item_load_filename fs self filename).1.file = some filename ∧
    (passim_item_load_filename fs self filename).1.basename = self.basename ∧
    (passim_item_load_filename fs self filename).1.hash = self.hash := by
  have hload : passim_item_load_filename fs self filename =
      (passim_item_set_file self (some filename), false) := by
    unfold passim_item_load_filename
    rw [hq]
  rw [hload, set_file_spec]
  exact ⟨rfl, rfl, rfl, rfl⟩

/-- Witness for C4 at a path the concrete filesystem does not know. -/
theorem C4_load_metadata_failure_witness :
    (passim_item_load_filename fsHello itemEx "/nope").2 = false ∧
    (passim_item_load_filename fsHello itemEx "/nope").1.file = some "/nope" ∧
    (passim_item_load_filename fsHello itemEx "/nope").1.basename = itemEx.basename ∧
    (passim_item_load_filename fsHello itemEx "/nope").1.hash = itemEx.hash :=
  C4_load_metadata_failure fsHello itemEx "/nope" (by decide)

/-- C5 as stated is false: on a path whose metadata query succeeds but reports
no creation time, load succeeds while leaving ctime unset, because the NULL
result of g_file_info_get_creation_date_time is assigned without a check. -/
theorem C5_counterexample :
    (passim_item_load_filename fsNoCtime passim_item_new "/mnt/f").2 = true ∧
    (passim_item_load_filename fsNoCtime passim_item_new "/mnt/f").1.ctime = none := by
  decide

/-- C5 amended: load fails only when the metadata query itself fails or when an
unset hash cannot be computed because the content read fails; on query success
the queried creation timestamp, which may itself be absent, is stored in ctime,
always overwriting, so load can succeed with ctime unset. -/
theorem C5_load_ctime_stored_from_query (fs : Filesystem) (self : PassimItem) (filename : String)
    (info : GFileInfo) (hq : fs.query_info filename = some info) :
    (passim_item_load_filename fs self filename).1.ctime = info.creation_date_time ∧
    ((passim_item_load_filename fs self filename).2 = true ↔
      (self.hash ≠ none ∨ fs.get_contents filename ≠ none)) := by
  unfold passim_item_load_filename passim_compute_checksum_for_filename
  rw [hq, set_file_spec]
  dsimp only
  split_ifs with hb hh hh
  · cases hc : fs.get_contents filename <;> simp_all
  · simp_all
  · cases hc : fs.get_contents filename <;> simp_all
  · simp_all

/-- Witness for C5 on the concrete filesystem that knows the creation time. -/
theorem C5_load_ctime_stored_from_query_witness :
    (passim_item_load_filename fsHello passim_item_new "/tmp/hello").1.ctime =
      some 1700000000 ∧
    ((passim_item_load_filename fsHello passim_item_new "/tmp/hello").2 = true ↔
      (passim_item_new.hash ≠ none ∨ fsHello.get_contents "/tmp/hello" ≠ none)) :=
  C5_load_ctime_stored_from_query fsHello passim_item_new "/tmp/hello"
    { creation_date_time := some 1700000000 } (by decide)

/-- C6: a pre-set basename survives load unchanged; an unset basename becomes
the final path component after a successful load; a pre-set hash survives load
unchanged; an unset hash is computed by the checksum engine over the file
content on a successful load. -/
theorem C6_loader_non_clobber (fs : Filesystem) (self : PassimItem) (filename : String) :
    (∀ b, self.basename = some b →
      (passim_item_load_filename fs self filename).1.basename = some b) ∧
    (self.basename = none → (passim_item_load_filename fs self filename).2 = true →
      (passim_item_load_filename fs self filename).1.basename =
        some (g_path_get_basename filename)) ∧
    (∀ h, self.hash = some h →
      (passim_item_load_filename fs self filename).1.hash = some h) ∧
    (self.hash = none → (passim_item_load_filename fs self filename).2 = true →
      ∃ buf, fs.get_contents filename = some buf ∧
        (passim_item_load_filename fs self filename).1.hash =
          some (g_compute_checksum_for_data_sha256 buf)) := by
  unfold passim_item_load_filename passim_compute_checksum_for_filename
  cases hq : fs.query_info filename with
  | none =>
    rw [set_file_spec]
    refine ⟨fun b hbs => hbs, fun _ hfalse => by simp_all, fun h hhs => hhs,
            fun _ hfalse => by simp_all⟩
  | some info =>
    rw [set_file_spec]
    dsimp only
    split_ifs with hb hh hh
    · cases hc : fs.get_contents filename with
      | none => exact ⟨fun b hbs => by simp_all, fun _ hfalse => by simp_all,
                       fun h hhs => by simp_all, fun _ hfalse => by simp_all⟩
      | some buf => exact ⟨fun b hbs => by simp_all, fun _ _ => rfl,
                           fun h hhs => by simp_all, fun _ _ => ⟨buf, rfl, rfl⟩⟩
    · exact ⟨fun b hbs => by simp_all, fun _ _ => rfl, fun h hhs => hhs,
             fun hhn _ => by simp_all⟩
    · cases hc : fs.get_contents filename with
      | none => exact ⟨fun b hbs => hbs, fun hbn => by simp_all,
                       fun h hhs => by simp_all, fun _ hfalse => by simp_all⟩
      | some buf => exact ⟨fun b hbs => hbs, fun hbn => by simp_all,
                           fun h hhs => by simp_all, fun _ _ => ⟨buf, rfl, rfl⟩⟩
    · exact ⟨fun b hbs => hbs, fun hbn => by simp_all, fun h hhs => hhs,
             fun hhn _ => by simp_all⟩

/-- Witness for C6: on a fresh item the loaded basename is the final path
component, and on a fully populated item basename and hash survive the load. -/
theorem C6_loader_non_clobber_witness :
    (passim_item_load_filename fsHello passim_item_new "/tmp/hello").1.basename =
      some (g_path_get_basename "/tmp/hello") ∧
    (passim_item_load_filename fsHello itemEx "/tmp/hello").1.basename = some "b1" ∧
    (passim_item_load_filename fsHello itemEx "/tmp/hello").1.hash = some "h1" :=
  ⟨(C6_loader_non_clobber fsHello passim_item_new "/tmp/hello").2.1 rfl (by decide),
   (C6_loader_non_clobber fsHello itemEx "/tmp/hello").1 "b1" rfl,
   (C6_loader_non_clobber fsHello itemEx "/tmp/hello").2.2.1 "h1" rfl⟩

end Passim
